import Mathlib

/-!
Verification development for the video-classification-lrcn repository.

The repository has two source files, run.py and preprocess.py; the modules
they import (video_datasets, utils, models, train, test) are part of the
repository but their sources are absent, so the definitions below that come
from those modules are modelled from the specification and say so in their
doc comments.  Everything else is translated directly from the source.
-/

namespace VideoLRCN

/-! ### Embedding of preprocess.py -/

/-- The filesystem tree under the video directory: each entry pairs a class
directory name with the list of file names it contains; the flag records
whether the frame store path already exists. -/
structure VideoFS where
  classDirs : List (String × List String)
  storePathExists : Bool
deriving Repr, DecidableEq

/-- Filesystem side effects performed by preprocess_video, in program order. -/
inductive FsAction where
  | makedirs (path : String)
  | makedirsExistOk (path : String)
  | getFrames (vidPath : String) (nFrames : Nat)
  | storeFrames (destDir : String)
deriving Repr, DecidableEq

/-- Python filename.split(".")[0]: the part of the file name before the
first dot. -/
def stemOf (filename : String) : String := (filename.splitOn ".").headD ""

/-- The hard-coded video directory name used by preprocess.py. -/
def videoDir : String := "UCF50_video"

/-- preprocess.py, preprocess_video: create the store path if it does not
exist; iterate the class directories of the video directory; for each file
whose name ends in .avi, extract 16 frames, create the per-video store
directory (exist_ok) and store the frames there; all other files produce no
action. -/
def preprocess_video (store_path : String) (fs : VideoFS) : List FsAction :=
  (if fs.storePathExists then [] else [FsAction.makedirs store_path]) ++
  fs.classDirs.flatMap (fun d =>
    d.2.flatMap (fun filename =>
      if filename.endsWith ".avi" then
        [FsAction.getFrames (videoDir ++ "/" ++ d.1 ++ "/" ++ filename) 16,
         FsAction.makedirsExistOk (store_path ++ "/" ++ d.1 ++ "/" ++ stemOf filename),
         FsAction.storeFrames (store_path ++ "/" ++ d.1 ++ "/" ++ stemOf filename)]
      else []))

/-- Emitting a block of actions per element only when a test passes is the
same as emitting over the filtered list. -/
theorem flatMap_ite_eq_filter_flatMap {α β : Type} (l : List α) (p : α → Bool)
    (g : α → List β) :
    l.flatMap (fun x => if p x then g x else []) = (l.filter p).flatMap g := by
  induction l with
  | nil => rfl
  | cons x xs ih =>
    by_cases h : p x = true
    · simp [List.flatMap_cons, List.filter_cons, h, ih]
    · simp only [Bool.not_eq_true] at h
      simp [List.flatMap_cons, List.filter_cons, h, ih]

/-- Every getFrames action emitted by a per-file block requests 16 frames,
lifted over flatMap. -/
theorem preprocess_all_sixteen (sp : String) (fs : VideoFS) :
    ((preprocess_video sp fs).all
      (fun a => match a with
        | FsAction.getFrames _ n => n == 16
        | _ => true)) = true := by
  unfold preprocess_video
  rw [List.all_append]
  refine Bool.and_eq_true_iff.mpr ⟨?_, ?_⟩
  · by_cases h : fs.storePathExists <;> simp [h]
  · rw [List.all_eq_true]
    intro a ha
    rw [List.mem_flatMap] at ha
    obtain ⟨d, _, hd⟩ := ha
    rw [List.mem_flatMap] at hd
    obtain ⟨f, _, hf⟩ := hd
    by_cases hext : f.endsWith ".avi" = true
    · simp only [hext, if_true, List.mem_cons, List.not_mem_nil, or_false] at hf
      rcases hf with h1 | h1 | h1 <;> subst h1 <;> rfl
    · simp only [Bool.not_eq_true] at hext
      simp [hext] at hf

/-- C10: preprocess_video processes exactly the files ending in .avi (others
are silently skipped), always requests exactly 16 frames per video, and for
each processed file creates (exist_ok) and writes into
store_path/class/stem-before-first-dot. -/
theorem preprocess_video_spec (sp : String) (fs : VideoFS) :
    preprocess_video sp fs =
      (if fs.storePathExists then [] else [FsAction.makedirs sp]) ++
        fs.classDirs.flatMap (fun d =>
          (d.2.filter (fun f => f.endsWith ".avi")).flatMap (fun f =>
            [FsAction.getFrames (videoDir ++ "/" ++ d.1 ++ "/" ++ f) 16,
             FsAction.makedirsExistOk (sp ++ "/" ++ d.1 ++ "/" ++ stemOf f),
             FsAction.storeFrames (sp ++ "/" ++ d.1 ++ "/" ++ stemOf f)]))
    ∧ ((preprocess_video sp fs).all
        (fun a => match a with
          | FsAction.getFrames _ n => n == 16
          | _ => true)) = true := by
  constructor
  · simp only [preprocess_video, flatMap_ite_eq_filter_flatMap]
  · exact preprocess_all_sixteen sp fs

/-! ### Label dictionaries -/

/-- Python dict comprehension over enumerate: each class name of the listing
maps to its index (run.py line 186). -/
def labelDictOf (cats : List String) : List (String × Nat) :=
  cats.enum.map (fun p => (p.2, p.1))

/-- The listing is recovered from the dictionary by projecting the keys. -/
theorem labelDictOf_map_fst (cats : List String) :
    (labelDictOf cats).map Prod.fst = cats := by
  simp only [labelDictOf, List.map_map]
  exact List.enum_map_snd cats

/-- Two listings with the same enumerate dictionary are equal. -/
theorem labelDictOf_inj (l1 l2 : List String)
    (h : labelDictOf l1 = labelDictOf l2) : l1 = l2 := by
  have h1 := congrArg (List.map Prod.fst) h
  rwa [labelDictOf_map_fst, labelDictOf_map_fst] at h1

/-! ### Samples and the dataset splitter -/

/-- A sample: path of a frame-sequence directory and its integer label. -/
abbrev Sample := String × Nat

/-- Modelled from the spec: dataset_split (video_datasets.py, absent from
src/) shuffles the sample list and partitions it into train, validation and
test parts of proportions train_size, 1 - train_size - test_size and
test_size (spec 4.2), returned in the order train, val, test as destructured
at run.py line 146.  The shuffle is modelled as acting on the input list, so
the function is stated over the already-shuffled list; part sizes are the
floors of proportion times length. -/
def dataset_split (S : List Sample) (train_size test_size : ℚ) :
    List Sample × List Sample × List Sample :=
  let n : Nat := S.length
  let nTrain : Nat := Int.toNat ⌊train_size * n⌋
  let nTest : Nat := Int.toNat ⌊test_size * n⌋
  let train := S.take nTrain
  let rest := S.drop nTrain
  let test := rest.take nTest
  let val := rest.drop nTest
  (train, val, test)

/-! ### The split record artifact (splits.npy) -/

/-- The split record built at run.py lines 149-151, keyed train, val, test. -/
structure SplitRecord where
  train : List Sample
  val : List Sample
  test : List Sample
deriving Repr, DecidableEq

/-- np.array over a list of (string, int) pairs coerces every entry to a
string, so a stored label is its decimal text; the text is modelled as the
base-10 digit list of the label. -/
def npStr (n : Nat) : List Nat := Nat.digits 10 n

/-- Python int() applied to the decimal text of a label. -/
def pyInt (ds : List Nat) : Nat := Nat.ofDigits 10 ds

/-- The single serialized artifact splits.npy with its three keys, after the
np.array coercion of each split. -/
structure SavedSplits where
  train : List (String × List Nat)
  val : List (String × List Nat)
  test : List (String × List Nat)
deriving Repr, DecidableEq

/-- np.array applied to one split (run.py lines 149-151). -/
def npArraySplit (l : List Sample) : List (String × List Nat) :=
  l.map (fun s => (s.1, npStr s.2))

/-- run.py lines 149-152: persist the three splits as one artifact. -/
def saveSplitsFile (r : SplitRecord) : SavedSplits :=
  { train := npArraySplit r.train
    val := npArraySplit r.val
    test := npArraySplit r.test }

/-- run.py lines 172-174: load splits.npy, select the test key, and rebuild
the (path, int(label)) pairs. -/
def loadTestSplit (s : SavedSplits) : List Sample :=
  s.test.map (fun sample => (sample.1, pyInt sample.2))

/-! ### Configuration and argument parsing (run.py, lines 41-88) -/

/-- The parsed configuration, one field per command-line option.  Floats
are modelled as rationals. -/
structure Config where
  frame_dir : Option String
  train_size : ℚ
  test_size : ℚ
  fr_per_vid : Nat
  n_classes : Nat
  ckpt : Option String
  model_type : String
  cnn_backbone : String
  pretrained : Bool
  rnn_hidden_size : Nat
  rnn_n_layers : Nat
  mode : String
  batch_size : Nat
  dropout : ℚ
  learning_rate : ℚ
  n_epochs : Nat
deriving Repr, DecidableEq

/-- The raw command line: every option possibly absent. -/
structure RawArgs where
  frame_dir : Option String
  train_size : Option ℚ
  test_size : Option ℚ
  fr_per_vid : Option Nat
  n_classes : Option Nat
  ckpt : Option String
  model_type : Option String
  cnn_backbone : Option String
  pretrained : Option Bool
  rnn_hidden_size : Option Nat
  rnn_n_layers : Option Nat
  mode : Option String
  batch_size : Option Nat
  dropout : Option ℚ
  learning_rate : Option ℚ
  n_epochs : Option Nat
deriving Repr, DecidableEq

/-- The argument parsing helper of run.py: n_classes, mode and batch_size are required, so
argparse exits (result none) when any of them is missing, before main is
entered; every other option falls back to its declared default. -/
def parseArgs (raw : RawArgs) : Option Config :=
  match raw.n_classes, raw.mode, raw.batch_size with
  | some nc, some m, some bs =>
      some { frame_dir := raw.frame_dir
             train_size := raw.train_size.getD (7 / 10)
             test_size := raw.test_size.getD (1 / 10)
             fr_per_vid := raw.fr_per_vid.getD 16
             n_classes := nc
             ckpt := raw.ckpt
             model_type := raw.model_type.getD "lrcn"
             cnn_backbone := raw.cnn_backbone.getD "resnet34"
             pretrained := raw.pretrained.getD true
             rnn_hidden_size := raw.rnn_hidden_size.getD 100
             rnn_n_layers := raw.rnn_n_layers.getD 1
             mode := m
             batch_size := bs
             dropout := raw.dropout.getD (1 / 10)
             learning_rate := raw.learning_rate.getD (3 / 100000)
             n_epochs := raw.n_epochs.getD 30 }
  | _, _, _ => none

/-! ### The model constructed by main -/

/-- The LRCN constructor arguments as passed at run.py lines 140-141. -/
structure LRCN where
  hidden_size : Nat
  n_layers : Nat
  dropout_rate : ℚ
  n_classes : Nat
  pretrained : Bool
  cnn_model : String
deriving Repr, DecidableEq

/-- run.py lines 140-141: the model is built from the rnn, dropout, class
count, pretrained and backbone options only. -/
def modelOf (cfg : Config) : LRCN :=
  { hidden_size := cfg.rnn_hidden_size
    n_layers := cfg.rnn_n_layers
    dropout_rate := cfg.dropout
    n_classes := cfg.n_classes
    pretrained := cfg.pretrained
    cnn_model := cfg.cnn_backbone }

/-! ### The ambient state of one invocation of main -/

/-- Filesystem state seen by one run: the class subtrees of the frame
directory, the current directory listing of UCF50, the content of splits.npy
when present, and the output dimensionality recorded in the checkpoint
file. -/
structure Env where
  frameTree : List (String × List String)
  ucf50Listing : List String
  savedSplits : Option SavedSplits
  ckptOutDim : Nat
deriving Repr, DecidableEq

/-- run.py lines 185-186: at evaluation time labels_dict is rebuilt from a
fresh os.listdir of UCF50. -/
def evalLabelDict (env : Env) : List (String × Nat) :=
  labelDictOf env.ucf50Listing

/-- Modelled from the spec: load_dataset (video_datasets.py, absent from
src/) scans the frame directory tree and assigns integer ids to class names
in a stable deterministic order (spec 4.1), modelled as the listing order of
the class directories. -/
def trainLabelDict (env : Env) : List (String × Nat) :=
  labelDictOf (env.frameTree.map Prod.fst)

/-! ### The trace of main (run.py lines 90-204) -/

/-- The significant calls of run.py main, in program order. -/
inductive Ev where
  | transformStats (model_type : String)
  | composeTransforms
  | buildModel (arch : String) (m : LRCN)
  | loadDataset (frame_dir : Option String)
  | datasetSplitEv
  | saveSplitsEv
  | makeTrainValLoaders (model_type : String)
  | trainLoopEv (n_epochs : Nat)
  | loadSplitsEv
  | makeTestLoaders (model_type : String)
  | loadCheckpoint
  | raiseCheckpointShapeError
  | raiseFileNotFound
  | testPass
  | reportAccuracy
  | reportClassification
  | raiseLabelMismatch
  | reportConfusion
  | raiseValueError
deriving Repr, DecidableEq

/-- run.py main as the ordered trace of its significant calls.  The calls
into the absent modules are modelled from the spec as plain events.  In the
eval branch, loading the checkpoint fails when its output dimensionality
differs from the constructed model (strict state-dict loading), and,
modelled from the spec (4.6), the reporting functions of the evaluation
engine raise LabelMismatchError when the label dictionary does not match the
output dimensionality of the loaded checkpoint; run.py prints the overall
accuracy (line 188) before those reporting functions run (lines 193-201). -/
def main (cfg : Config) (env : Env) : List Ev :=
  [Ev.transformStats cfg.model_type, Ev.composeTransforms,
   Ev.buildModel "LRCN" (modelOf cfg)] ++
  (if cfg.mode = "train" then
     [Ev.loadDataset cfg.frame_dir, Ev.datasetSplitEv, Ev.saveSplitsEv,
      Ev.makeTrainValLoaders cfg.model_type, Ev.trainLoopEv cfg.n_epochs]
   else if cfg.mode = "eval" then
     match env.savedSplits with
     | none => [Ev.raiseFileNotFound]
     | some _ =>
         [Ev.loadSplitsEv, Ev.makeTestLoaders cfg.model_type] ++
         (if env.ckptOutDim = cfg.n_classes then
            [Ev.loadCheckpoint, Ev.testPass, Ev.reportAccuracy] ++
            (if env.ucf50Listing.length = cfg.n_classes then
               [Ev.reportClassification, Ev.reportConfusion]
             else [Ev.raiseLabelMismatch])
          else [Ev.raiseCheckpointShapeError])
   else [Ev.raiseValueError])

/-- The whole program: argparse, then main; argparse exits with no work
done when a required option is missing. -/
def runProgram (raw : RawArgs) (env : Env) : Option (List Ev) :=
  (parseArgs raw).map (fun cfg => main cfg env)

/-! ### Concrete inputs used by counterexamples and witnesses -/

/-- A training-time tree listing classes a then b, while the evaluation-time
listing of UCF50 returns b then a. -/
def envC1 : Env :=
  { frameTree := [("a", ["v1"]), ("b", ["v2"])]
    ucf50Listing := ["b", "a"]
    savedSplits := none
    ckptOutDim := 2 }

/-- A configuration whose mode is neither train nor eval. -/
def cfgBadMode : Config :=
  { frame_dir := some "frames"
    train_size := 7 / 10
    test_size := 1 / 10
    fr_per_vid := 16
    n_classes := 5
    ckpt := none
    model_type := "lrcn"
    cnn_backbone := "resnet34"
    pretrained := true
    rnn_hidden_size := 100
    rnn_n_layers := 1
    mode := "test"
    batch_size := 4
    dropout := 1 / 10
    learning_rate := 3 / 100000
    n_epochs := 30 }

/-- An empty ambient filesystem. -/
def envSmall : Env :=
  { frameTree := [], ucf50Listing := [], savedSplits := none, ckptOutDim := 5 }

/-- A command line missing the required n_classes option. -/
def rawMissing : RawArgs :=
  { frame_dir := none, train_size := none, test_size := none,
    fr_per_vid := none, n_classes := none, ckpt := none, model_type := none,
    cnn_backbone := none, pretrained := none, rnn_hidden_size := none,
    rnn_n_layers := none, mode := some "train", batch_size := some 4,
    dropout := none, learning_rate := none, n_epochs := none }

/-- An eval-mode configuration expecting 2 classes. -/
def cfgEval : Config :=
  { cfgBadMode with mode := "eval", n_classes := 2 }

/-- An environment whose checkpoint matches the configured 2 classes but
whose UCF50 listing holds 3 entries. -/
def envMismatch : Env :=
  { frameTree := [("a", ["v1"]), ("b", ["v2"])]
    ucf50Listing := ["a", "b", "c"]
    savedSplits := some { train := [], val := [], test := [] }
    ckptOutDim := 2 }

/-! ### C1: the label dictionary at evaluation time -/

/-- C1 counterexample: with classes indexed in the order a, b at training
time but UCF50 listed b, a at evaluation time, the dictionary rebuilt at
evaluation differs from the one built at indexing time, so the two are not
identical and no persisted artifact links them. -/
theorem eval_dict_recomputed_counterexample :
    evalLabelDict envC1 ≠ trainLabelDict envC1 := by decide

/-- C1 amended: the evaluation-time label dictionary is recomputed from a
fresh listing of UCF50 (run.py lines 185-186), not read back from a
persisted artifact; it equals the indexing-time dictionary exactly when that
listing coincides with the training-time class listing, and re-deriving the
dictionary from the same directory tree yields the same mapping. -/
theorem label_dict_recomputed (env : Env) :
    (evalLabelDict env = trainLabelDict env ↔
      env.ucf50Listing = env.frameTree.map Prod.fst) ∧
    (∀ env2 : Env, env.frameTree = env2.frameTree →
      trainLabelDict env = trainLabelDict env2) := by
  refine ⟨⟨fun h => labelDictOf_inj _ _ h, fun h => ?_⟩, fun env2 h => ?_⟩
  · unfold evalLabelDict trainLabelDict
    rw [h]
  · unfold trainLabelDict
    rw [h]

/-- C1 witness: the amended statement applied at the concrete environment. -/
theorem label_dict_recomputed_witness :
    (evalLabelDict envC1 = trainLabelDict envC1 ↔
      envC1.ucf50Listing = envC1.frameTree.map Prod.fst) ∧
    trainLabelDict envC1 = trainLabelDict envC1 :=
  ⟨(label_dict_recomputed envC1).1, (label_dict_recomputed envC1).2 envC1 rfl⟩

/-! ### C3: round trip of the split record -/

/-- C3: the split record persisted in train mode is a single artifact keyed
train, val, test, and the eval-mode load of that artifact reconstructs
exactly the (path, label) pairs of the saved test split. -/
theorem split_record_roundtrip (r : SplitRecord) :
    loadTestSplit (saveSplitsFile r) = r.test := by
  unfold loadTestSplit saveSplitsFile npArraySplit
  rw [List.map_map]
  have h : ((fun sample : String × List Nat => (sample.1, pyInt sample.2)) ∘
      (fun s : Sample => (s.1, npStr s.2))) = id := by
    funext s
    simp [pyInt, npStr, Nat.ofDigits_digits]
  rw [h, List.map_id]

/-! ### C4: failure on invalid mode and missing required options -/

/-- True when a buildModel event occurs strictly before a raiseValueError
event in the trace. -/
def modelBuiltBeforeError : List Ev → Bool
  | [] => false
  | Ev.buildModel _ _ :: rest => rest.any (fun e => decide (e = Ev.raiseValueError))
  | _ :: rest => modelBuiltBeforeError rest

/-- C4 counterexample: with mode set to test, which is neither train nor
eval, main constructs the model before raising the configuration error, so
the failure does not precede model construction. -/
theorem invalid_mode_builds_model_counterexample :
    cfgBadMode.mode ≠ "train" ∧ cfgBadMode.mode ≠ "eval" ∧
    modelBuiltBeforeError (main cfgBadMode envSmall) = true := by decide

/-- C4 amended: an invalid mode raises the configuration error with no
dataset, training or evaluation work performed, but only after the transform
statistics are loaded and the model is constructed; a missing required
option (n_classes, mode or batch_size) makes argparse exit before main runs
at all. -/
theorem invalid_mode_raises_after_model (cfg : Config) (env : Env)
    (raw : RawArgs) (h1 : cfg.mode ≠ "train") (h2 : cfg.mode ≠ "eval")
    (h3 : raw.n_classes = none ∨ raw.mode = none ∨ raw.batch_size = none) :
    main cfg env =
      [Ev.transformStats cfg.model_type, Ev.composeTransforms,
       Ev.buildModel "LRCN" (modelOf cfg), Ev.raiseValueError] ∧
    runProgram raw env = none := by
  constructor
  · simp [main, h1, h2]
  · unfold runProgram parseArgs
    rcases h3 with h | h | h <;> rw [h]
    · rfl
    · cases raw.n_classes <;> rfl
    · cases raw.n_classes <;> cases raw.mode <;> rfl

/-- C4 witness: the amended statement applied at the concrete inputs. -/
theorem invalid_mode_raises_after_model_witness :
    (main cfgBadMode envSmall =
      [Ev.transformStats cfgBadMode.model_type, Ev.composeTransforms,
       Ev.buildModel "LRCN" (modelOf cfgBadMode), Ev.raiseValueError] ∧
    runProgram rawMissing envSmall = none) :=
  invalid_mode_raises_after_model cfgBadMode envSmall rawMissing
    (by decide) (by decide) (Or.inl rfl)

/-! ### C9: the model is built unconditionally and ignores model_type -/

/-- C9: main loads the transform statistics for the configured model type
and then constructs an LRCN model before any branching on mode, for every
configuration and environment; and the constructed model does not depend on
model_type at all, so model_type set to 3dcnn still builds the same LRCN. -/
theorem model_independent_of_model_type (cfg : Config) (env : Env)
    (mt : String) :
    (main cfg env).take 3 =
      [Ev.transformStats cfg.model_type, Ev.composeTransforms,
       Ev.buildModel "LRCN" (modelOf cfg)] ∧
    modelOf { cfg with model_type := mt } = modelOf cfg ∧
    modelOf { cfg with model_type := "3dcnn" } = modelOf cfg := by
  exact ⟨rfl, rfl, rfl⟩

/-! ### C8: label-dictionary mismatch at evaluation time -/

/-- True when a reportAccuracy event occurs strictly before a
raiseLabelMismatch event in the trace. -/
def accuracyBeforeMismatch : List Ev → Bool
  | [] => false
  | Ev.reportAccuracy :: rest => rest.any (fun e => decide (e = Ev.raiseLabelMismatch))
  | _ :: rest => accuracyBeforeMismatch rest

/-- C8 counterexample: in an eval run whose label dictionary (3 entries)
does not match the checkpoint output dimensionality (2), the overall
accuracy metric is reported strictly before the LabelMismatchError, so the
run does not fail before any metric is reported. -/
theorem accuracy_before_mismatch_counterexample :
    envMismatch.ucf50Listing.length ≠ cfgEval.n_classes ∧
    accuracyBeforeMismatch (main cfgEval envMismatch) = true := by decide

/-- C8 amended: on a label-dictionary mismatch the eval run raises
LabelMismatchError before the classification report and the confusion
matrix are produced, but only after the overall accuracy has already been
reported, because run.py prints accuracy (line 188) before calling the
reporting functions that can validate the dictionary (lines 193-201). -/
theorem label_mismatch_after_accuracy (cfg : Config) (env : Env)
    (s : SavedSplits) (hm : cfg.mode = "eval") (hs : env.savedSplits = some s)
    (hck : env.ckptOutDim = cfg.n_classes)
    (hmm : env.ucf50Listing.length ≠ cfg.n_classes) :
    main cfg env =
      [Ev.transformStats cfg.model_type, Ev.composeTransforms,
       Ev.buildModel "LRCN" (modelOf cfg), Ev.loadSplitsEv,
       Ev.makeTestLoaders cfg.model_type, Ev.loadCheckpoint, Ev.testPass,
       Ev.reportAccuracy, Ev.raiseLabelMismatch] ∧
    Ev.reportClassification ∉ main cfg env ∧
    Ev.reportConfusion ∉ main cfg env := by
  have htr : main cfg env =
      [Ev.transformStats cfg.model_type, Ev.composeTransforms,
       Ev.buildModel "LRCN" (modelOf cfg), Ev.loadSplitsEv,
       Ev.makeTestLoaders cfg.model_type, Ev.loadCheckpoint, Ev.testPass,
       Ev.reportAccuracy, Ev.raiseLabelMismatch] := by
    simp [main, hm, hs, hck, hmm]
  refine ⟨htr, ?_, ?_⟩ <;> rw [htr] <;> simp

/-- C8 witness: the amended statement applied at the concrete inputs. -/
theorem label_mismatch_after_accuracy_witness :
    (main cfgEval envMismatch =
      [Ev.transformStats cfgEval.model_type, Ev.composeTransforms,
       Ev.buildModel "LRCN" (modelOf cfgEval), Ev.loadSplitsEv,
       Ev.makeTestLoaders cfgEval.model_type, Ev.loadCheckpoint, Ev.testPass,
       Ev.reportAccuracy, Ev.raiseLabelMismatch] ∧
    Ev.reportClassification ∉ main cfgEval envMismatch ∧
    Ev.reportConfusion ∉ main cfgEval envMismatch) :=
  label_mismatch_after_accuracy cfgEval envMismatch
    { train := [], val := [], test := [] } rfl rfl rfl (by decide)

/-! ### C5: the training loop (train.py, absent from src/) -/

/-- The four recorded metrics of one epoch (spec 3, Metric History). -/
structure EpochMetrics where
  trainLoss : ℚ
  valLoss : ℚ
  trainAcc : ℚ
  valAcc : ℚ
deriving Repr, DecidableEq

/-- The loop state: the metric history, the best validation loss so far,
and the checkpoint file on disk. -/
structure TrainState (P : Type) where
  history : List EpochMetrics
  bestLoss : Option ℚ
  ckptFile : Option P

/-- Modelled from the spec: one epoch of the training loop (train.py,
absent from src/).  The train and validation phases produce that epoch and its
metrics; when the validation loss is strictly below the best seen so far in
this run the current parameters are persisted to the checkpoint file,
overwriting any previous best (spec 4.5 checkpoint_decision); the metrics
are appended to the history.  The metrics and the parameters at each epoch
come from the black-box model and are inputs here. -/
def trainEpoch {P : Type} (metrics : Nat → EpochMetrics) (params : Nat → P)
    (s : TrainState P) (e : Nat) : TrainState P :=
  let m := metrics e
  let improved : Bool :=
    match s.bestLoss with
    | none => true
    | some b => decide (m.valLoss < b)
  { history := s.history ++ [m]
    bestLoss := if improved then some m.valLoss else s.bestLoss
    ckptFile := if improved then some (params e) else s.ckptFile }

/-- Modelled from the spec: the training loop over n_epochs epochs. -/
def trainRun {P : Type} (metrics : Nat → EpochMetrics) (params : Nat → P)
    (n_epochs : Nat) : TrainState P :=
  (List.range n_epochs).foldl (trainEpoch metrics params) ⟨[], none, none⟩

/-- Unrolling the last epoch of a run. -/
theorem trainRun_succ {P : Type} (metrics : Nat → EpochMetrics)
    (params : Nat → P) (n : Nat) :
    trainRun metrics params (n + 1) =
      trainEpoch metrics params (trainRun metrics params n) n := by
  unfold trainRun
  rw [List.range_succ, List.foldl_append]
  rfl

/-- The history after n epochs is the per-epoch metric list. -/
theorem trainRun_history {P : Type} (metrics : Nat → EpochMetrics)
    (params : Nat → P) (n : Nat) :
    (trainRun metrics params n).history = (List.range n).map metrics := by
  induction n with
  | zero => rfl
  | succ k ih =>
    rw [trainRun_succ]
    simp [trainEpoch, ih, List.range_succ]

/-- After at least one epoch the checkpoint holds the parameters of the
earliest epoch achieving the minimum validation loss, and the best loss is
that minimum. -/
theorem trainRun_ckpt_best {P : Type} (metrics : Nat → EpochMetrics)
    (params : Nat → P) (n : Nat) (hp : 0 < n) :
    ∃ e, e < n ∧
      (trainRun metrics params n).ckptFile = some (params e) ∧
      (trainRun metrics params n).bestLoss = some ((metrics e).valLoss) ∧
      (∀ j, j < n → (metrics e).valLoss ≤ (metrics j).valLoss) ∧
      (∀ j, j < e → (metrics e).valLoss < (metrics j).valLoss) := by
  induction n with
  | zero => exact absurd hp (lt_irrefl 0)
  | succ k ih =>
    by_cases hk : 0 < k
    · obtain ⟨e, he, hc, hb, hmin, hearly⟩ := ih hk
      by_cases himp : (metrics k).valLoss < (metrics e).valLoss
      · refine ⟨k, Nat.lt_succ_self k, ?_, ?_, ?_, ?_⟩
        · rw [trainRun_succ]
          simp [trainEpoch, hb, himp]
        · rw [trainRun_succ]
          simp [trainEpoch, hb, himp]
        · intro j hj
          rcases Nat.lt_succ_iff_lt_or_eq.mp hj with h | h
          · exact le_of_lt (lt_of_lt_of_le himp (hmin j h))
          · subst h
            exact le_rfl
        · intro j hj
          exact lt_of_lt_of_le himp (hmin j hj)
      · refine ⟨e, lt_trans he (Nat.lt_succ_self k), ?_, ?_, ?_, ?_⟩
        · rw [trainRun_succ]
          simp [trainEpoch, hb, himp, hc]
        · rw [trainRun_succ]
          simp [trainEpoch, hb, himp]
        · intro j hj
          rcases Nat.lt_succ_iff_lt_or_eq.mp hj with h | h
          · exact hmin j h
          · subst h
            exact not_lt.mp himp
        · exact hearly
    · have hk0 : k = 0 := by omega
      subst hk0
      refine ⟨0, Nat.zero_lt_one, ?_, ?_, ?_, ?_⟩
      · rfl
      · rfl
      · intro j hj
        have h0 : j = 0 := Nat.lt_one_iff.mp hj
        subst h0
        exact le_rfl
      · intro j hj
        exact absurd hj (Nat.not_lt_zero j)

/-- C5: after a run of n_epochs epochs the metric history has exactly
n_epochs entries, and the checkpoint on disk holds the parameters of the
epoch whose recorded validation loss is minimal over the whole run, the
earliest such epoch in case of ties, the checkpoint having been overwritten
exactly on strict improvements. -/
theorem train_history_and_best_ckpt {P : Type} (metrics : Nat → EpochMetrics)
    (params : Nat → P) (n_epochs : Nat) (hp : 0 < n_epochs) :
    (trainRun metrics params n_epochs).history.length = n_epochs ∧
    ∃ e, e < n_epochs ∧
      (trainRun metrics params n_epochs).ckptFile = some (params e) ∧
      (∀ j, j < n_epochs → (metrics e).valLoss ≤ (metrics j).valLoss) ∧
      (∀ j, j < e → (metrics e).valLoss < (metrics j).valLoss) := by
  constructor
  · rw [trainRun_history]
    simp
  · obtain ⟨e, he, hc, _, hmin, hearly⟩ := trainRun_ckpt_best metrics params n_epochs hp
    exact ⟨e, he, hc, hmin, hearly⟩

/-- Concrete metric trace: validation losses 2 then 1. -/
def metricsW (e : Nat) : EpochMetrics :=
  { trainLoss := 0, valLoss := if e = 0 then 2 else 1, trainAcc := 0, valAcc := 0 }

/-- Concrete parameter trace: the epoch number itself. -/
def paramsW : Nat → Nat := fun e => e

/-- C5 witness: the statement applied to a concrete two-epoch run. -/
theorem train_history_and_best_ckpt_witness :
    (trainRun metricsW paramsW 2).history.length = 2 ∧
    ∃ e, e < 2 ∧
      (trainRun metricsW paramsW 2).ckptFile = some (paramsW e) ∧
      (∀ j, j < 2 → (metricsW e).valLoss ≤ (metricsW j).valLoss) ∧
      (∀ j, j < e → (metricsW e).valLoss < (metricsW j).valLoss) :=
  train_history_and_best_ckpt metricsW paramsW 2 (by decide)

/-! ### C6: summed batch loss and the reported per-sample mean -/

/-- CrossEntropyLoss with reduction sum (run.py line 160): the loss of one
batch is the sum, not the mean, of the per-sample losses.  The per-sample
loss is produced by the black-box model and is an input here. -/
def batchLoss {α : Type} (lossOf : α → ℚ) (batch : List α) : ℚ :=
  (batch.map lossOf).sum

/-- Modelled from the spec: the train phase of one epoch (train.py, absent
from src/) accumulates the summed batch losses over all batches into a
running loss. -/
def epochRunningLoss {α : Type} (lossOf : α → ℚ) (batches : List (List α)) : ℚ :=
  batches.foldl (fun acc b => acc + batchLoss lossOf b) 0

/-- Modelled from the spec: the reported per-sample mean loss is the
accumulated running loss divided by the dataset size. -/
def reportedEpochLoss {α : Type} (lossOf : α → ℚ) (batches : List (List α))
    (datasetSize : Nat) : ℚ :=
  epochRunningLoss lossOf batches / datasetSize

/-- Folding additions of per-batch values equals the initial value plus the
sum. -/
theorem foldl_add_eq_sum {α : Type} (f : α → ℚ) (l : List α) (init : ℚ) :
    l.foldl (fun acc b => acc + f b) init = init + (l.map f).sum := by
  induction l generalizing init with
  | nil => simp
  | cons x xs ih =>
    simp only [List.foldl_cons, List.map_cons, List.sum_cons]
    rw [ih]
    ring

/-- C6: for every batching of the dataset, the accumulated training-phase
loss is the sum of the summed batch losses and equals the total per-sample
loss over the dataset, and the reported per-sample mean loss is that total
divided by the dataset size. -/
theorem epoch_loss_is_mean (lossOf : Sample → ℚ) (batches : List (List Sample))
    (dataset : List Sample) (hb : batches.flatten = dataset) :
    epochRunningLoss lossOf batches = (dataset.map lossOf).sum ∧
    reportedEpochLoss lossOf batches dataset.length =
      (dataset.map lossOf).sum / dataset.length := by
  have h1 : epochRunningLoss lossOf batches = (dataset.map lossOf).sum := by
    subst hb
    unfold epochRunningLoss
    rw [foldl_add_eq_sum, zero_add]
    unfold batchLoss
    rw [List.map_flatten, List.sum_flatten, List.map_map]
    rfl
  exact ⟨h1, by rw [reportedEpochLoss, h1]⟩

/-- C6 witness: the statement applied to a concrete two-batch epoch. -/
theorem epoch_loss_is_mean_witness :
    epochRunningLoss (fun s => (s.2 : ℚ)) [[("a", 1), ("b", 2)], [("c", 3)]] =
      (([("a", 1), ("b", 2), ("c", 3)] : List Sample).map (fun s => (s.2 : ℚ))).sum ∧
    reportedEpochLoss (fun s => (s.2 : ℚ)) [[("a", 1), ("b", 2)], [("c", 3)]]
        ([("a", 1), ("b", 2), ("c", 3)] : List Sample).length =
      (([("a", 1), ("b", 2), ("c", 3)] : List Sample).map (fun s => (s.2 : ℚ))).sum /
        ([("a", 1), ("b", 2), ("c", 3)] : List Sample).length :=
  epoch_loss_is_mean (fun s => (s.2 : ℚ)) [[("a", 1), ("b", 2)], [("c", 3)]]
    [("a", 1), ("b", 2), ("c", 3)] rfl

/-! ### C7: evaluation accuracy and confusion matrix (test.py, absent
from src/) -/

/-- Scan for the first index holding the maximal value, carrying the next
index, the best index and the best value. -/
def argmaxAux : List ℚ → Nat → Nat → ℚ → Nat
  | [], _, bi, _ => bi
  | x :: xs, i, bi, bv =>
      if bv < x then argmaxAux xs (i + 1) i x else argmaxAux xs (i + 1) bi bv

/-- torch argmax over the logits of one sample: the first index of the
maximal entry. -/
def argmax : List ℚ → Nat
  | [] => 0
  | x :: xs => argmaxAux xs 1 0 x

/-- The scan never leaves the index range. -/
theorem argmaxAux_lt (xs : List ℚ) : ∀ (i bi : Nat) (bv : ℚ), bi < i →
    argmaxAux xs i bi bv < i + xs.length := by
  induction xs with
  | nil =>
    intro i bi bv h
    simpa using h
  | cons x xs ih =>
    intro i bi bv h
    unfold argmaxAux
    by_cases hc : bv < x
    · rw [if_pos hc]
      have h2 := ih (i + 1) i x (Nat.lt_succ_self i)
      simp only [List.length_cons]
      omega
    · rw [if_neg hc]
      have h2 := ih (i + 1) bi bv (h.trans (Nat.lt_succ_self i))
      simp only [List.length_cons]
      omega

/-- The predicted class of a nonempty logit vector is a valid index. -/
theorem argmax_lt_length (l : List ℚ) (h : l ≠ []) : argmax l < l.length := by
  cases l with
  | nil => exact absurd rfl h
  | cons x xs =>
    have h2 := argmaxAux_lt xs 1 0 x Nat.zero_lt_one
    simp only [argmax, List.length_cons]
    omega

/-- The output of one evaluation pass: per-sample true labels, per-sample
predicted labels, and the overall accuracy. -/
structure TestOut where
  targets : List Nat
  outputs : List Nat
  accuracy : ℚ

/-- Modelled from the spec: one step of the test loop (test.py, absent from
src/): record the true label and the argmax prediction and bump the running
count of correct predictions. -/
def testStep {α : Type} (logits : α → List ℚ) (labelOf : α → Nat)
    (acc : List Nat × List Nat × Nat) (s : α) : List Nat × List Nat × Nat :=
  let pred := argmax (logits s)
  (acc.1 ++ [labelOf s], acc.2.1 ++ [pred],
   acc.2.2 + (if pred = labelOf s then 1 else 0))

/-- Modelled from the spec: test (test.py, absent from src/) runs one full
pass over the test samples with gradients disabled, then reports accuracy
as correct over total.  The logits of each sample come from the black-box
model and are an input here. -/
def testRun {α : Type} (logits : α → List ℚ) (labelOf : α → Nat)
    (samples : List α) : TestOut :=
  let r := samples.foldl (testStep logits labelOf) ([], [], ( 0 : Nat))
  { targets := r.1, outputs := r.2.1, accuracy := (r.2.2 : ℚ) / samples.length }

/-- Closed form of the test fold from any starting accumulator. -/
theorem testFold_spec {α : Type} (logits : α → List ℚ) (labelOf : α → Nat)
    (samples : List α) (t0 o0 : List Nat) (c0 : Nat) :
    samples.foldl (testStep logits labelOf) (t0, o0, c0) =
      (t0 ++ samples.map labelOf,
       o0 ++ samples.map (fun s => argmax (logits s)),
       c0 + samples.countP (fun s => decide (argmax (logits s) = labelOf s))) := by
  induction samples generalizing t0 o0 c0 with
  | nil => simp
  | cons s ss ih =>
    rw [List.foldl_cons]
    have hstep : testStep logits labelOf (t0, o0, c0) s =
        (t0 ++ [labelOf s], o0 ++ [argmax (logits s)],
         c0 + if argmax (logits s) = labelOf s then 1 else 0) := rfl
    rw [hstep, ih]
    simp only [List.countP_cons, List.map_cons, Prod.mk.injEq,
      List.append_assoc, List.singleton_append]
    refine ⟨trivial, trivial, ?_⟩
    by_cases h : argmax (logits s) = labelOf s <;> simp [h] <;> omega

/-- Modelled from the spec: get_confusion_matrix (test.py, absent from
src/): the cell at row t, column p counts the test samples whose true label
is t and whose predicted label is p (spec 4.6). -/
def confusionCell (targets outputs : List Nat) (t p : Nat) : Nat :=
  (targets.zip outputs).countP (fun q => decide (q.1 = t) && decide (q.2 = p))

/-- Summing one row of pair counts over all columns below K counts the
pairs with that first component, provided every second component is below
K. -/
theorem sum_confusion_row (pairs : List (Nat × Nat)) (K t : Nat)
    (hp : ∀ q ∈ pairs, q.2 < K) :
    ((Finset.range K).sum fun p =>
        pairs.countP (fun q => decide (q.1 = t) && decide (q.2 = p))) =
      pairs.countP (fun q => decide (q.1 = t)) := by
  induction pairs with
  | nil => simp
  | cons q qs ih =>
    have hq : q.2 < K := hp q (List.mem_cons_self q qs)
    have ih2 := ih (fun r hr => hp r (List.mem_cons_of_mem q hr))
    simp only [List.countP_cons]
    rw [Finset.sum_add_distrib, ih2]
    congr 1
    by_cases ht : q.1 = t
    · have hrw : ∀ p : Nat,
          (if (decide (q.1 = t) && decide (q.2 = p)) = true then 1 else 0) =
            if q.2 = p then 1 else 0 := by
        intro p
        simp [ht]
      rw [Finset.sum_congr rfl (fun p _ => hrw p)]
      simp [Finset.sum_ite_eq, Finset.mem_range, hq, ht]
    · simp [ht]

/-- C7: the reported accuracy of an evaluation pass equals exactly the
count of samples whose argmax prediction matches the true label divided by
the number of test samples, and each row t of the confusion matrix sums,
over the predicted-class columns, to the number of test samples whose true
label is t. -/
theorem test_accuracy_and_confusion {α : Type} (logits : α → List ℚ)
    (labelOf : α → Nat) (samples : List α) (K : Nat) (hK : 0 < K)
    (hlen : ∀ s ∈ samples, (logits s).length = K) :
    (testRun logits labelOf samples).accuracy =
      (samples.countP (fun s => decide (argmax (logits s) = labelOf s)) : ℚ) /
        samples.length ∧
    ∀ t, ((Finset.range K).sum fun p =>
        confusionCell (testRun logits labelOf samples).targets
          (testRun logits labelOf samples).outputs t p) =
      samples.countP (fun s => decide (labelOf s = t)) := by
  have hfold := testFold_spec logits labelOf samples [] [] 0
  have htr : testRun logits labelOf samples =
      { targets := samples.map labelOf,
        outputs := samples.map (fun s => argmax (logits s)),
        accuracy :=
          (samples.countP (fun s => decide (argmax (logits s) = labelOf s)) : ℚ) /
            samples.length } := by
    unfold testRun
    rw [hfold]
    simp
  constructor
  · rw [htr]
  · intro t
    rw [htr]
    simp only
    have hzip : (samples.map labelOf).zip
        (samples.map (fun s => argmax (logits s))) =
        samples.map (fun s => (labelOf s, argmax (logits s))) := by
      rw [List.zip_map']
    unfold confusionCell
    rw [hzip]
    have hp : ∀ q ∈ samples.map (fun s => (labelOf s, argmax (logits s))),
        q.2 < K := by
      intro q hqm
      rw [List.mem_map] at hqm
      obtain ⟨s, hs, hq⟩ := hqm
      subst hq
      have hne : logits s ≠ [] := by
        intro hnil
        have hl := hlen s hs
        rw [hnil] at hl
        simp at hl
        omega
      have := argmax_lt_length (logits s) hne
      rw [hlen s hs] at this
      exact this
    rw [sum_confusion_row _ K t hp]
    rw [List.countP_map]
    rfl

/-- The example scenario of spec 8: ten samples with labels
0,0,1,1,0,1,0,1,0,0 and a model that always predicts class 0. -/
def samplesW : List Nat := [0, 0, 1, 1, 0, 1, 0, 1, 0, 0]

/-- Logits that always make class 0 the argmax. -/
def logitsW : Nat → List ℚ := fun _ => [1, 0]

/-- C7 witness: the statement applied to the spec example scenario. -/
theorem test_accuracy_and_confusion_witness :
    (testRun logitsW (fun s => s) samplesW).accuracy =
      (samplesW.countP (fun s => decide (argmax (logitsW s) = s)) : ℚ) /
        samplesW.length ∧
    ∀ t, ((Finset.range 2).sum fun p =>
        confusionCell (testRun logitsW (fun s => s) samplesW).targets
          (testRun logitsW (fun s => s) samplesW).outputs t p) =
      samplesW.countP (fun s => decide (s = t)) :=
  test_accuracy_and_confusion logitsW (fun s => s) samplesW 2 (by decide)
    (fun s _ => rfl)

/-! ### C2: the dataset splitter partitions exactly -/

/-- The three splits laid end to end in the order train, test, val
reconstitute the input list exactly. -/
theorem dataset_split_append (S : List Sample) (trs tss : ℚ) :
    (dataset_split S trs tss).1 ++ (dataset_split S trs tss).2.2 ++
      (dataset_split S trs tss).2.1 = S := by
  unfold dataset_split
  simp only [List.append_assoc, List.take_append_drop]

/-- C2: for every sample list and valid pair of proportions the three
returned splits are pairwise disjoint and their union as sets is exactly
the input, with no sample dropped or duplicated; and a 100-sample list with
proportions 7/10 and 1/10 yields 70 train, 20 val and 10 test samples. -/
theorem dataset_split_partition (S : List Sample) (trs tss : ℚ)
    (h1 : 0 < trs) (h2 : trs < 1) (h3 : 0 < tss) (h4 : tss < 1)
    (h5 : trs + tss ≤ 1) (hnd : S.Nodup) :
    ((dataset_split S trs tss).1.Disjoint (dataset_split S trs tss).2.1 ∧
     (dataset_split S trs tss).1.Disjoint (dataset_split S trs tss).2.2 ∧
     (dataset_split S trs tss).2.1.Disjoint (dataset_split S trs tss).2.2 ∧
     ∀ a, a ∈ S ↔ a ∈ (dataset_split S trs tss).1 ∨
       a ∈ (dataset_split S trs tss).2.1 ∨ a ∈ (dataset_split S trs tss).2.2) ∧
    (trs = 7 / 10 → tss = 1 / 10 → S.length = 100 →
      (dataset_split S trs tss).1.length = 70 ∧
      (dataset_split S trs tss).2.1.length = 20 ∧
      (dataset_split S trs tss).2.2.length = 10) := by
  have happ := dataset_split_append S trs tss
  constructor
  · have hnd2 : ((dataset_split S trs tss).1 ++ (dataset_split S trs tss).2.2 ++
        (dataset_split S trs tss).2.1).Nodup := by
      rw [happ]
      exact hnd
    rw [List.append_assoc, List.nodup_append] at hnd2
    obtain ⟨-, hnd3, hdisj1⟩ := hnd2
    rw [List.nodup_append] at hnd3
    obtain ⟨-, -, hdisj2⟩ := hnd3
    rw [List.disjoint_append_right] at hdisj1
    refine ⟨hdisj1.2, hdisj1.1, List.Disjoint.symm hdisj2, ?_⟩
    intro a
    conv_lhs => rw [← happ]
    simp only [List.mem_append]
    tauto
  · intro ht7 ht1 hlen
    subst ht7
    subst ht1
    unfold dataset_split
    simp only [List.length_take, List.length_drop, hlen]
    norm_num
    decide

/-- One hundred distinct samples over two balanced classes. -/
def samplesC2 : List Sample := (List.range 100).map (fun i => (Nat.repr i, i % 2))

/-- The hundred samples are distinct. -/
theorem samplesC2_nodup : samplesC2.Nodup := by decide

/-- The list indeed has one hundred samples. -/
theorem samplesC2_length : samplesC2.length = 100 := by
  simp [samplesC2]

/-- C2 witness: the statement applied to the concrete 100-sample list with
the proportions of the example scenario. -/
theorem dataset_split_partition_witness :
    ((dataset_split samplesC2 (7 / 10) (1 / 10)).1.Disjoint
        (dataset_split samplesC2 (7 / 10) (1 / 10)).2.1 ∧
      (dataset_split samplesC2 (7 / 10) (1 / 10)).1.Disjoint
        (dataset_split samplesC2 (7 / 10) (1 / 10)).2.2 ∧
      (dataset_split samplesC2 (7 / 10) (1 / 10)).2.1.Disjoint
        (dataset_split samplesC2 (7 / 10) (1 / 10)).2.2 ∧
      ∀ a, a ∈ samplesC2 ↔ a ∈ (dataset_split samplesC2 (7 / 10) (1 / 10)).1 ∨
        a ∈ (dataset_split samplesC2 (7 / 10) (1 / 10)).2.1 ∨
        a ∈ (dataset_split samplesC2 (7 / 10) (1 / 10)).2.2) ∧
    ((dataset_split samplesC2 (7 / 10) (1 / 10)).1.length = 70 ∧
      (dataset_split samplesC2 (7 / 10) (1 / 10)).2.1.length = 20 ∧
      (dataset_split samplesC2 (7 / 10) (1 / 10)).2.2.length = 10) := by
  have h := dataset_split_partition samplesC2 (7 / 10) (1 / 10) (by norm_num)
    (by norm_num) (by norm_num) (by norm_num) (by norm_num) samplesC2_nodup
  exact ⟨h.1, h.2 rfl rfl samplesC2_length⟩

end VideoLRCN
